import Mathlib

/-!
Formal model of the CorespaceWeigher registration routes
(`routes/src/register.rs`, `routes/src/extend_subscription.rs`).

Pure Rust values become Lean values; the ambient collaborators (the config
provider, the registry store, the remote chain RPC endpoint, the system
clock) become explicit parameters.  Machine integers (`u128` cost, `u64`
timestamps, `u32` block numbers) are modelled as `Nat`; the only place the
Rust code can wrap or saturate is the explicit `saturating_sub` in
`extend_subscription`, which is exactly Lean's truncated `Nat` subtraction.
-/

/-- Modelled from the spec: the payment-specific failure kinds
(`shared::payment::PaymentError`, declared outside `src/`; §7 of the spec,
also named in `routes/tests/register.rs`). -/
inductive PaymentError where
  | Unfinalized
  | NotFound
  | ValidationFailed
  deriving DecidableEq

/-- Modelled from the spec: the route error type (`routes::Error`, declared
outside `src/`).  It carries every variant the two route files under `src/`
construct: the raw payment variants used by `register.rs`
(`UnfinalizedPayment`, `PaymentNotFound`, `PaymentValidationFailed`) and the
wrapping variant used by `extend_subscription.rs`
(`PaymentValidationError`), plus `NotRegistered`, `AlreadyRegistered` and
`PaymentRequired` (§7 of the spec). -/
inductive Error where
  | NotRegistered
  | AlreadyRegistered
  | PaymentRequired
  | UnfinalizedPayment
  | PaymentNotFound
  | PaymentValidationFailed
  | PaymentValidationError (e : PaymentError)
  deriving DecidableEq

/-- Modelled from the spec: a registration record (`types::Parachain`,
declared outside `src/`): the parachain identity (relay-chain tag and
numeric para id) plus the subscription expiry timestamp (§3 of the spec).
The relay-chain tag is kept as the string its `Display` implementation
produces, which is what the remark payload interpolates. -/
structure Parachain where
  relay_chain : String
  para_id : Nat
  expiry_timestamp : Nat
  deriving DecidableEq

/-- Modelled from the spec: the payment configuration
(`shared::config::PaymentInfo`, declared outside `src/`): receiver account
(as its 32 raw bytes), expected cost as a decimal string, subscription
duration, renewal period and the RPC endpoint (§3/§6 of the spec). -/
structure PaymentInfo where
  rpc_url : String
  receiver : List Nat
  cost : String
  subscription_duration : Nat
  renewal_period : Nat
  deriving DecidableEq

/-- UTF-8 encoding of one character, as `str::as_bytes` produces it. -/
def utf8EncodeCharBytes (c : Char) : List Nat :=
  let n := c.toNat
  if n < 128 then [n]
  else if n < 2048 then
    [192 + n / 64, 128 + n % 64]
  else if n < 65536 then
    [224 + n / 4096, 128 + n / 64 % 64, 128 + n % 64]
  else
    [240 + n / 262144, 128 + n / 4096 % 64, 128 + n / 64 % 64, 128 + n % 64]

/-- UTF-8 bytes of a string (`str::as_bytes().to_vec()`). -/
def utf8Bytes (s : String) : List Nat :=
  (s.toList.map utf8EncodeCharBytes).flatten

/-- Little-endian base-256 digits of a natural number (no trailing zero). -/
def natToLEBytes (n : Nat) : List Nat :=
  if h : n = 0 then [] else n % 256 :: natToLEBytes (n / 256)
decreasing_by exact Nat.div_lt_self (Nat.pos_of_ne_zero h) (by decide)

/-- SCALE compact encoding of an integer, used by the derived `Encode`
instances for `Vec` lengths and `#[codec(compact)]` balances. -/
def scaleCompact (n : Nat) : List Nat :=
  if n < 64 then [n * 4]
  else if n < 16384 then
    let v := n * 4 + 1
    [v % 256, v / 256 % 256]
  else if n < 1073741824 then
    let v := n * 4 + 2
    [v % 256, v / 256 % 256, v / 65536 % 256, v / 16777216 % 256]
  else
    let bytes := natToLEBytes n
    ((bytes.length - 4) * 4 + 3) :: bytes

/-- The fragment of the generated runtime call type (`polkadot::Call` from
`register.rs`) that the route code constructs, with every other runtime
call collapsed into an opaque variant (`Other`): a pallet tag plus its
already-encoded payload.  `Balances_transfer_keep_alive` keeps the
receiver's `MultiAddress::Id` bytes and the balance;
`System_remark` keeps the remark bytes; `Utility_batch_all` the sub-call
list. -/
inductive Call where
  | Balances_transfer_keep_alive (dest : List Nat) (value : Nat)
  | System_remark (remark : List Nat)
  | Utility_batch_all (calls : List Call)
  | Other (pallet : Nat) (payload : List Nat)

mutual

/-- SCALE encoding of a runtime call (`parity_scale_codec::Encode` as
derived for `polkadot::Call`): a pallet index byte, a call index byte, then
the SCALE-encoded fields.  The pallet and call indices (System = 0 with
`remark` = 0, Balances = 5 with `transfer_keep_alive` = 3, Utility = 26
with `batch_all` = 2) follow the Polkadot runtime metadata the source
binds (`artifacts/metadata.scale`); a `MultiAddress::Id` destination is a
0 tag byte before the account bytes, and a compact balance follows. -/
def Call.encode : Call → List Nat
  | .System_remark remark => 0 :: 0 :: (scaleCompact remark.length ++ remark)
  | .Balances_transfer_keep_alive dest value =>
      5 :: 3 :: (0 :: dest ++ scaleCompact value)
  | .Utility_batch_all calls =>
      26 :: 2 :: (scaleCompact calls.length ++ Call.encodeList calls)
  | .Other pallet payload => pallet :: payload

/-- SCALE encoding of a call list, call by call (the length prefix is
emitted by `Call.encode` at the batch). -/
def Call.encodeList : List Call → List Nat
  | [] => []
  | c :: cs => c.encode ++ Call.encodeList cs

end

/-- Rust's `str::parse::<u128>()`: an optional leading plus sign, then at
least one decimal digit, rejecting anything else and values of 2^128 or
more. -/
def parseU128 (s : String) : Option Nat :=
  let ds := match s.toList with
    | '+' :: rest => rest
    | cs => cs
  if ds = [] then none
  else if ds.all (fun c => c.isDigit) then
    let n := ds.foldl (fun acc c => acc * 10 + (c.toNat - 48)) 0
    if n < 2 ^ 128 then some n else none
  else none

/-- The expected payment call (`opaque_payment_extrinsic` in
`register.rs`): parse the configured cost; on success build the batch-all
of the keep-alive transfer to the configured receiver followed by the
`"<relay-chain>:<para-id>"` remark, otherwise fail with
`PaymentValidationFailed`. -/
def opaque_payment_extrinsic (para : Parachain) (payment_info : PaymentInfo) :
    Except Error Call :=
  match parseU128 payment_info.cost with
  | some cost =>
      let transfer_call := Call.Balances_transfer_keep_alive payment_info.receiver cost
      let remark := utf8Bytes (para.relay_chain ++ ":" ++ toString para.para_id)
      let remark_call := Call.System_remark remark
      Except.ok (Call.Utility_batch_all [transfer_call, remark_call])
  | none => Except.error Error.PaymentValidationFailed

/-- A fetched block (`subxt::blocks::Block`): its number and, when the
extrinsics fetch succeeds, the ordered extrinsic list, each entry either
decoded as a top-level runtime call (`as_root_extrinsic::<polkadot::Call>`
succeeded) or undecodable/errored (`none`). -/
structure Block where
  number : Nat
  extrinsics : Option (List (Option Call))

/-- Modelled from the spec: the remote chain as observed over RPC during
one verification (§4.2 of the spec).  `rpcClientOk` / `onlineClientOk` are
whether the two client constructions in `validate_registration_payment`
succeed; `finalizedHeadHash` answers `chain_getFinalizedHead`;
`blockHashFor` answers `chain_getBlockHash` by number; `blockAt` answers
`api.blocks().at(hash)`.  `none` anywhere is a transport/decoding
failure. -/
structure ChainEnv where
  rpcClientOk : Bool
  onlineClientOk : Bool
  finalizedHeadHash : Option Nat
  blockHashFor : Nat → Option Nat
  blockAt : Nat → Option Block

/-- Fetch a block by hash (`get_block` in `register.rs`): any failure maps
to `PaymentValidationFailed`. -/
def get_block (env : ChainEnv) (block_hash : Nat) : Except Error Block :=
  match env.blockAt block_hash with
  | some b => Except.ok b
  | none => Except.error Error.PaymentValidationFailed

/-- Resolve a block number to its hash (`get_block_hash` in
`register.rs`). -/
def get_block_hash (env : ChainEnv) (block_number : Nat) : Except Error Nat :=
  match env.blockHashFor block_number with
  | some h => Except.ok h
  | none => Except.error Error.PaymentValidationFailed

/-- Number of the last finalized block (`get_last_finalized_block` in
`register.rs`): resolve the finalized-head hash, fetch that block, return
its number. -/
def get_last_finalized_block (env : ChainEnv) : Except Error Nat :=
  match env.finalizedHeadHash with
  | none => Except.error Error.PaymentValidationFailed
  | some h =>
    match get_block env h with
    | Except.error e => Except.error e
    | Except.ok b => Except.ok b.number

/-- Scan a fetched block for the expected payment
(`ensure_contains_payment` in `register.rs`): build the expected call, keep
the extrinsics that decode as top-level runtime calls (the rest are
silently dropped by the `filter_map`), re-encode each and test exact-byte
containment of the expected call's encoding; a missing match is
`PaymentNotFound`. -/
def ensure_contains_payment (para : Parachain) (payment_info : PaymentInfo)
    (block : Block) : Except Error Unit :=
  match opaque_payment_extrinsic para payment_info with
  | Except.error e => Except.error e
  | Except.ok payment =>
    match block.extrinsics with
    | none => Except.error Error.PaymentValidationFailed
    | some exts =>
      let extrinsics : List (List Nat) := (exts.filterMap id).map Call.encode
      if extrinsics.contains payment.encode then Except.ok ()
      else Except.error Error.PaymentNotFound

/-- The payment verifier (`validate_registration_payment` in
`register.rs`): build both RPC clients, check the claimed block number
against the last finalized block number (`UnfinalizedPayment` when
greater), then resolve the claimed number to a hash, fetch that block and
scan it. -/
def validate_registration_payment (env : ChainEnv) (para : Parachain)
    (payment_info : PaymentInfo) (payment_block_number : Nat) : Except Error Unit :=
  if env.rpcClientOk = false then Except.error Error.PaymentValidationFailed
  else if env.onlineClientOk = false then Except.error Error.PaymentValidationFailed
  else
    match get_last_finalized_block env with
    | Except.error e => Except.error e
    | Except.ok last_finalized =>
      if payment_block_number > last_finalized then
        Except.error Error.UnfinalizedPayment
      else
        match get_block_hash env payment_block_number with
        | Except.error e => Except.error e
        | Except.ok block_hash =>
          match get_block env block_hash with
          | Except.error e => Except.error e
          | Except.ok block => ensure_contains_payment para payment_info block

/-- Modelled from the spec: the registry lookup by identity
(`shared::registry::registered_para`, declared outside `src/`): the first
record whose relay chain and para id match (§3/§6 of the spec: the
identity is the unique key). -/
def registered_para (registry : List Parachain) (relay_chain : String)
    (para_id : Nat) : Option Parachain :=
  registry.find? (fun p => p.relay_chain == relay_chain && p.para_id == para_id)

/-- The body of `POST /register_para` (`RegistrationData` in
`register.rs`). -/
structure RegistrationData where
  para : Parachain
  payment_block_number : Option Nat

/-- The `/register_para` handler (`register_para` in `register.rs`),
with the ambient collaborators explicit: `cfg` is
`config().payment_info`, `env` the remote chain, `persistOk` whether
`update_registry` succeeds, `registry` the current `registered_paras()`.
Returns the HTTP-visible result and the registry contents after the call
(unchanged when persistence fails: that failure is only logged). -/
def register_para (cfg : Option PaymentInfo) (env : ChainEnv) (persistOk : Bool)
    (registry : List Parachain) (data : RegistrationData) :
    Except Error Unit × List Parachain :=
  let para := data.para
  if (registered_para registry para.relay_chain para.para_id).isSome then
    (Except.error Error.AlreadyRegistered, registry)
  else
    match cfg with
    | some payment_info =>
      match data.payment_block_number with
      | none => (Except.error Error.PaymentRequired, registry)
      | some payment_block_number =>
        match validate_registration_payment env para payment_info payment_block_number with
        | Except.error e => (Except.error e, registry)
        | Except.ok _ =>
          (Except.ok (), if persistOk then registry ++ [para] else registry)
    | none => (Except.ok (), if persistOk then registry ++ [para] else registry)

/-- The body of `POST /extend-subscription` (`ExtendSubscriptionData` in
`extend_subscription.rs`). -/
structure ExtendSubscriptionData where
  para : String × Nat
  payment_block_number : Nat

/-- The paid-mode gate of `extend_subscription`: the renewal-window check
(`expiry_timestamp.saturating_sub(renewal_period) > now`, which is exactly
truncated `Nat` subtraction) and then the shared payment verifier, whose
failure is wrapped as `PaymentValidationError`; the resulting duration is
`subscription_duration`, or the `u64` default 0 in free mode. -/
def extend_duration (cfg : Option PaymentInfo) (now : Nat)
    (verify : Parachain → PaymentInfo → Nat → Except PaymentError Unit)
    (para : Parachain) (payment_block_number : Nat) : Except Error Nat :=
  match cfg with
  | some payment_info =>
    if para.expiry_timestamp - payment_info.renewal_period > now then
      Except.error Error.AlreadyRegistered
    else
      match verify para payment_info payment_block_number with
      | Except.error e => Except.error (Error.PaymentValidationError e)
      | Except.ok _ => Except.ok payment_info.subscription_duration
  | none => Except.ok 0

/-- Bump the expiry of the first record equal to `para`
(`paras.iter_mut().find(|p| **p == para)` followed by
`para.expiry_timestamp += d`); `none` when no record matches. -/
def update_first_matching (para : Parachain) (d : Nat) :
    List Parachain → Option (List Parachain)
  | [] => none
  | p :: ps =>
    if p = para then
      some ({ p with expiry_timestamp := p.expiry_timestamp + d } :: ps)
    else
      (update_first_matching para d ps).map (fun l => p :: l)

/-- The `/extend-subscription` handler (`extend_subscription` in
`extend_subscription.rs`), with the ambient collaborators explicit:
`now` is `current_timestamp()` and `verify` is the shared payment verifier
(`shared::payment::validate_registration_payment`, declared outside
`src/`, abstracted as a parameter).  Returns the HTTP-visible result and
the registry contents after the call. -/
def extend_subscription (cfg : Option PaymentInfo) (now : Nat)
    (verify : Parachain → PaymentInfo → Nat → Except PaymentError Unit)
    (persistOk : Bool) (registry : List Parachain)
    (data : ExtendSubscriptionData) : Except Error Unit × List Parachain :=
  match registered_para registry data.para.1 data.para.2 with
  | none => (Except.error Error.NotRegistered, registry)
  | some para =>
    match extend_duration cfg now verify para data.payment_block_number with
    | Except.error e => (Except.error e, registry)
    | Except.ok subscription_duration =>
      match update_first_matching para subscription_duration registry with
      | none => (Except.error Error.NotRegistered, registry)
      | some updated => (Except.ok (), if persistOk then updated else registry)

/-- A concrete registered parachain, used by the witnesses. -/
def paraW : Parachain := ⟨"polkadot", 2000, 50⟩

/-- A concrete payment configuration, used by the witnesses. -/
def pinfoW : PaymentInfo := ⟨"wss://rpc.example", [7, 7], "100", 30, 10⟩

/-- A registered parachain whose remaining subscription (expiry 5) is
shorter than `pinfoW`'s renewal period, used by the witnesses. -/
def paraL : Parachain := ⟨"polkadot", 2001, 5⟩

/-- The expected payment call for `paraW` under `pinfoW`. -/
def expectedW : Call :=
  Call.Utility_batch_all
    [Call.Balances_transfer_keep_alive [7, 7] 100,
     Call.System_remark (utf8Bytes "polkadot:2000")]

/-- A concrete block holding an undecodable extrinsic, an unrelated call
and the expected payment call, used by the witnesses. -/
def blockW : Block :=
  ⟨42, some [none, some (Call.Other 9 [1, 2, 3]), some expectedW]⟩

/-- A concrete chain whose finalized head is block 90 and whose block 42
(hash 2) is `blockW`, used by the witnesses. -/
def envW : ChainEnv :=
  ⟨true, true, some 1,
   fun n => if n = 42 then some 2 else none,
   fun h => if h = 1 then some ⟨90, some []⟩
            else if h = 2 then some blockW else none⟩

/-- A chain whose finalized head is block 5 and which resolves no other
hash, used by the unfinalized-payment evaluations. -/
def envU : ChainEnv :=
  ⟨true, true, some 1, fun _ => none,
   fun h => if h = 1 then some ⟨5, some []⟩ else none⟩

/-- C1: for every parachain identity and every payment configuration whose
cost string parses as a non-negative integer, the expected call is a
batch-all of exactly two sub-calls in fixed order: the keep-alive transfer
of the parsed cost to the configured receiver, then the remark whose
payload is the UTF-8 bytes of "<relay-chain>:<para-id>".  The right-hand
side mentions only the identity and the payment configuration, so the
construction depends on nothing else. -/
theorem C1_call_builder (para : Parachain) (payment_info : PaymentInfo)
    (cost : Nat) (h : parseU128 payment_info.cost = some cost) :
    opaque_payment_extrinsic para payment_info =
      Except.ok (Call.Utility_batch_all
        [Call.Balances_transfer_keep_alive payment_info.receiver cost,
         Call.System_remark
           (utf8Bytes (para.relay_chain ++ ":" ++ toString para.para_id))]) := by
  unfold opaque_payment_extrinsic
  rw [h]

/-- C1 witness: `C1_call_builder` applied at `paraW` and `pinfoW`, whose
cost string "100" parses to 100. -/
theorem C1_call_builder_witness :
    parseU128 pinfoW.cost = some 100 ∧
    opaque_payment_extrinsic paraW pinfoW =
      Except.ok (Call.Utility_batch_all
        [Call.Balances_transfer_keep_alive pinfoW.receiver 100,
         Call.System_remark
           (utf8Bytes (paraW.relay_chain ++ ":" ++ toString paraW.para_id))]) :=
  ⟨rfl, C1_call_builder paraW pinfoW 100 rfl⟩

/-- C2: given the expected call and a block whose extrinsics were fetched,
the scan succeeds exactly when some extrinsic that decodes as a top-level
runtime call re-encodes to the expected call's bytes (at any position,
undecodable extrinsics silently skipped), and otherwise fails with
`PaymentNotFound`. -/
theorem C2_payment_scan (para : Parachain) (payment_info : PaymentInfo)
    (block : Block) (payment : Call) (exts : List (Option Call))
    (hp : opaque_payment_extrinsic para payment_info = Except.ok payment)
    (hx : block.extrinsics = some exts) :
    (ensure_contains_payment para payment_info block = Except.ok () ↔
      ∃ c : Call, some c ∈ exts ∧ Call.encode c = Call.encode payment) ∧
    ((¬ ∃ c : Call, some c ∈ exts ∧ Call.encode c = Call.encode payment) →
      ensure_contains_payment para payment_info block =
        Except.error Error.PaymentNotFound) := by
  have hkey : (((exts.filterMap id).map Call.encode).contains
        (Call.encode payment) = true) ↔
      ∃ c : Call, some c ∈ exts ∧ Call.encode c = Call.encode payment := by
    rw [List.contains_iff_exists_mem_beq]
    constructor
    · rintro ⟨b, hb, hab⟩
      rcases List.mem_map.mp hb with ⟨c, hc, hcb⟩
      rcases List.mem_filterMap.mp hc with ⟨oc, hoc, hid⟩
      have hoc' : oc = some c := hid
      refine ⟨c, ?_, ?_⟩
      · rwa [hoc'] at hoc
      · rw [hcb]
        exact (beq_iff_eq.mp hab).symm
    · rintro ⟨c, hc, hce⟩
      refine ⟨Call.encode c, List.mem_map.mpr
        ⟨c, List.mem_filterMap.mpr ⟨some c, hc, rfl⟩, rfl⟩, ?_⟩
      exact beq_iff_eq.mpr hce.symm
  unfold ensure_contains_payment
  rw [hp, hx]
  by_cases hc : ∃ c : Call, some c ∈ exts ∧ Call.encode c = Call.encode payment
  · have ht := hkey.mpr hc
    simp only [ht, if_true]
    exact ⟨by simp [hc], fun hn => absurd hc hn⟩
  · have hf : ((exts.filterMap id).map Call.encode).contains
        (Call.encode payment) = false := by
      rw [Bool.eq_false_iff]
      intro h
      exact hc (hkey.mp h)
    simp only [hf, Bool.false_eq_true, if_false]
    exact ⟨by simp [hc], fun _ => trivial⟩

/-- C2 witness: `C2_payment_scan` applied at `paraW`, `pinfoW` and
`blockW`, whose third extrinsic is the expected call (after an
undecodable extrinsic and an unrelated call). -/
theorem C2_payment_scan_witness :
    opaque_payment_extrinsic paraW pinfoW = Except.ok expectedW ∧
    blockW.extrinsics = some [none, some (Call.Other 9 [1, 2, 3]), some expectedW] ∧
    ensure_contains_payment paraW pinfoW blockW = Except.ok () :=
  ⟨rfl, rfl,
    (C2_payment_scan paraW pinfoW blockW expectedW
        [none, some (Call.Other 9 [1, 2, 3]), some expectedW] rfl rfl).1.mpr
      ⟨expectedW, by simp, rfl⟩⟩

/-- C3: when the claimed payment block number exceeds the finalized head
number the verifier fails with `UnfinalizedPayment`, and it does so for
every block-number-to-hash resolution whatsoever (the quantified `g`), so
the claimed block is never resolved to a hash nor fetched. -/
theorem C3_unfinalized_short_circuit (env : ChainEnv) (para : Parachain)
    (payment_info : PaymentInfo) (payment_block_number last_finalized : Nat)
    (h1 : env.rpcClientOk = true) (h2 : env.onlineClientOk = true)
    (h3 : get_last_finalized_block env = Except.ok last_finalized)
    (h4 : last_finalized < payment_block_number) :
    ∀ g : Nat → Option Nat,
      validate_registration_payment { env with blockHashFor := g } para
          payment_info payment_block_number =
        Except.error Error.UnfinalizedPayment := by
  intro g
  have hg : get_last_finalized_block
      ⟨true, true, env.finalizedHeadHash, g, env.blockAt⟩ =
      Except.ok last_finalized := h3
  unfold validate_registration_payment
  simp only [show ({ env with blockHashFor := g } : ChainEnv).rpcClientOk =
      env.rpcClientOk from rfl,
    show ({ env with blockHashFor := g } : ChainEnv).onlineClientOk =
      env.onlineClientOk from rfl, h1, h2]
  rw [hg]
  simp [h4]

/-- C3 witness: `C3_unfinalized_short_circuit` applied at `envU` (finalized
head 5) with claimed block 10, instantiating the resolution with the one
that answers nothing. -/
theorem C3_unfinalized_short_circuit_witness :
    envU.rpcClientOk = true ∧ envU.onlineClientOk = true ∧
    get_last_finalized_block envU = Except.ok 5 ∧ 5 < 10 ∧
    validate_registration_payment { envU with blockHashFor := fun _ => none }
        paraW pinfoW 10 = Except.error Error.UnfinalizedPayment :=
  ⟨rfl, rfl, rfl, by decide,
    C3_unfinalized_short_circuit envU paraW pinfoW 10 5 rfl rfl rfl
      (by decide) (fun _ => none)⟩

/-- C4: the claim (and the repository's own tests) say a payment-verifier
failure reaches the caller wrapped as `PaymentValidationError(...)`, but in
paid mode `register_para` propagates the raw variant: registering a fresh
para with an unfinalized claimed block (10, finalized head 5) answers the
bare `UnfinalizedPayment`, which is not `PaymentValidationError` applied to
anything. -/
theorem C4_raw_payment_error_evaluation :
    register_para (some pinfoW) envU true [] ⟨⟨"polkadot", 2006, 0⟩, some 10⟩ =
      (Except.error Error.UnfinalizedPayment, []) := rfl

/-- Helper: a successful lookup's record satisfies the identity
predicate. -/
theorem registered_para_pred (registry : List Parachain) (relay_chain : String)
    (para_id : Nat) (para : Parachain)
    (h : registered_para registry relay_chain para_id = some para) :
    (para.relay_chain == relay_chain && para.para_id == para_id) = true := by
  have h' : List.find? (fun q : Parachain =>
      q.relay_chain == relay_chain && q.para_id == para_id) registry =
      some para := h
  exact List.find?_some (p := fun q : Parachain =>
    q.relay_chain == relay_chain && q.para_id == para_id) h'

/-- Helper: bumping the expiry of the first record equal to the one the
identity lookup returned moves the lookup to the bumped record. -/
theorem registered_para_update_first (registry : List Parachain)
    (relay_chain : String) (para_id d : Nat) (para : Parachain)
    (l' : List Parachain)
    (h1 : registered_para registry relay_chain para_id = some para)
    (h2 : update_first_matching para d registry = some l') :
    registered_para l' relay_chain para_id =
      some { para with expiry_timestamp := para.expiry_timestamp + d } := by
  induction registry generalizing l' with
  | nil => simp [registered_para] at h1
  | cons p ps ih =>
    by_cases hp : (p.relay_chain == relay_chain && p.para_id == para_id) = true
    · have hfind : List.find? (fun q : Parachain =>
          q.relay_chain == relay_chain && q.para_id == para_id) (p :: ps) =
          some p := List.find?_cons_of_pos (p := fun q : Parachain =>
            q.relay_chain == relay_chain && q.para_id == para_id) ps hp
      have h1' : p = para := Option.some.inj (hfind.symm.trans h1)
      rw [update_first_matching, if_pos h1'] at h2
      cases h2
      subst h1'
      have hp' : ((({ p with expiry_timestamp := p.expiry_timestamp + d } :
          Parachain).relay_chain == relay_chain) &&
          (({ p with expiry_timestamp := p.expiry_timestamp + d } :
          Parachain).para_id == para_id)) = true := hp
      exact List.find?_cons_of_pos (p := fun q : Parachain =>
        q.relay_chain == relay_chain && q.para_id == para_id) ps hp'
    · have hfind : List.find? (fun q : Parachain =>
          q.relay_chain == relay_chain && q.para_id == para_id) (p :: ps) =
          List.find? (fun q : Parachain =>
            q.relay_chain == relay_chain && q.para_id == para_id) ps :=
        List.find?_cons_of_neg (p := fun q : Parachain =>
          q.relay_chain == relay_chain && q.para_id == para_id) ps hp
      have h1' : registered_para ps relay_chain para_id = some para :=
        hfind.symm.trans h1
      have hpred := registered_para_pred ps relay_chain para_id para h1'
      have hne : p ≠ para := fun he => hp (by rw [he]; exact hpred)
      rw [update_first_matching, if_neg hne] at h2
      cases hu : update_first_matching para d ps with
      | none => rw [hu] at h2; cases h2
      | some l'' =>
        rw [hu] at h2
        cases h2
        have hstep : registered_para (p :: l'') relay_chain para_id =
            registered_para l'' relay_chain para_id :=
          List.find?_cons_of_neg (p := fun q : Parachain =>
            q.relay_chain == relay_chain && q.para_id == para_id) l'' hp
        rw [hstep]
        exact ih l'' h1' hu

/-- Helper: a successful paid-mode gate yields exactly the configured
subscription duration. -/
theorem extend_duration_ok (pinfo : PaymentInfo) (now : Nat)
    (verify : Parachain → PaymentInfo → Nat → Except PaymentError Unit)
    (para : Parachain) (n d : Nat)
    (h : extend_duration (some pinfo) now verify para n = Except.ok d) :
    d = pinfo.subscription_duration := by
  simp only [extend_duration] at h
  by_cases hc : para.expiry_timestamp - pinfo.renewal_period > now
  · rw [if_pos hc] at h
    cases h
  · rw [if_neg hc] at h
    cases hv : verify para pinfo n with
    | error e => rw [hv] at h; cases h
    | ok u => rw [hv] at h; cases h; rfl

/-- C5: with payment configured, a successful extension moves the stored
record's expiry to exactly its previous value plus the configured
subscription duration (additive, never reset to now plus duration), and
every failing extension leaves the registry, hence the stored expiry,
unchanged. -/
theorem C5_extension_additive (pinfo : PaymentInfo) (now : Nat)
    (verify : Parachain → PaymentInfo → Nat → Except PaymentError Unit)
    (registry : List Parachain) (data : ExtendSubscriptionData)
    (para : Parachain) :
    ((registered_para registry data.para.1 data.para.2 = some para) →
      (extend_subscription (some pinfo) now verify true registry data).1 =
        Except.ok () →
      registered_para
          (extend_subscription (some pinfo) now verify true registry data).2
          data.para.1 data.para.2 =
        some { para with expiry_timestamp :=
          para.expiry_timestamp + pinfo.subscription_duration }) ∧
    (∀ (persistOk : Bool) (e : Error),
      (extend_subscription (some pinfo) now verify persistOk registry data).1 =
        Except.error e →
      (extend_subscription (some pinfo) now verify persistOk registry data).2 =
        registry) := by
  constructor
  · intro h1 hok
    unfold extend_subscription at hok ⊢
    simp only [h1] at hok ⊢
    cases hd : extend_duration (some pinfo) now verify para data.payment_block_number with
    | error e => simp [hd] at hok
    | ok d =>
      simp only [hd] at hok ⊢
      cases hu : update_first_matching para d registry with
      | none => simp [hu] at hok
      | some l' =>
        simp only [hu, if_true]
        have hdv := extend_duration_ok pinfo now verify para
          data.payment_block_number d hd
        subst hdv
        exact registered_para_update_first registry data.para.1 data.para.2
          pinfo.subscription_duration para l' h1 hu
  · intro persistOk e herr
    unfold extend_subscription at herr ⊢
    cases h1 : registered_para registry data.para.1 data.para.2 with
    | none => simp [h1]
    | some q =>
      simp only [h1] at herr ⊢
      cases hd : extend_duration (some pinfo) now verify q data.payment_block_number with
      | error e' => simp [hd]
      | ok d =>
        simp only [hd] at herr ⊢
        cases hu : update_first_matching q d registry with
        | none => simp [hu]
        | some l' => simp [hu] at herr

/-- C5 witness: `C5_extension_additive` applied to a registry holding
`paraW` (expiry 50) at time 45 with a succeeding verifier: the stored
expiry becomes 50 + 30. -/
theorem C5_extension_additive_witness :
    registered_para [paraW] "polkadot" 2000 = some paraW ∧
    (extend_subscription (some pinfoW) 45 (fun _ _ _ => Except.ok ()) true
        [paraW] ⟨("polkadot", 2000), 42⟩).1 = Except.ok () ∧
    registered_para
        (extend_subscription (some pinfoW) 45 (fun _ _ _ => Except.ok ()) true
          [paraW] ⟨("polkadot", 2000), 42⟩).2 "polkadot" 2000 =
      some { paraW with expiry_timestamp :=
        paraW.expiry_timestamp + pinfoW.subscription_duration } :=
  ⟨rfl, rfl,
    (C5_extension_additive pinfoW 45 (fun _ _ _ => Except.ok ()) [paraW]
        ⟨("polkadot", 2000), 42⟩ paraW).1 rfl rfl⟩

/-- C6: with payment configured, a request arriving before the renewal
window opens (now strictly below expiry minus renewal period) fails with
`AlreadyRegistered` and leaves the registry unchanged, and the outcome is
the same for every verifier (the quantified `verify`), so no network call
is consulted. -/
theorem C6_too_early_renewal (pinfo : PaymentInfo) (now : Nat)
    (registry : List Parachain) (data : ExtendSubscriptionData)
    (para : Parachain) (persistOk : Bool)
    (h1 : registered_para registry data.para.1 data.para.2 = some para)
    (h2 : now < para.expiry_timestamp - pinfo.renewal_period) :
    ∀ verify,
      extend_subscription (some pinfo) now verify persistOk registry data =
        (Except.error Error.AlreadyRegistered, registry) := by
  intro verify
  unfold extend_subscription
  simp only [h1]
  have hgt : para.expiry_timestamp - pinfo.renewal_period > now := h2
  simp [extend_duration, hgt]

/-- C6 witness: `C6_too_early_renewal` at time 30, before `paraW`'s renewal
window opens at 50 - 10 = 40, with the always-succeeding verifier. -/
theorem C6_too_early_renewal_witness :
    registered_para [paraW] "polkadot" 2000 = some paraW ∧
    30 < paraW.expiry_timestamp - pinfoW.renewal_period ∧
    extend_subscription (some pinfoW) 30 (fun _ _ _ => Except.ok ()) true
        [paraW] ⟨("polkadot", 2000), 42⟩ =
      (Except.error Error.AlreadyRegistered, [paraW]) :=
  ⟨rfl, by decide,
    C6_too_early_renewal pinfoW 30 [paraW] ⟨("polkadot", 2000), 42⟩ paraW true
      rfl (by decide) (fun _ _ _ => Except.ok ())⟩

/-- C7: when the parachain identity is already present in the registry,
`register_para` fails with `AlreadyRegistered` and leaves the registry
unchanged, for every payment configuration, chain state and persistence
outcome (so regardless of the supplied payment block number or its
validity). -/
theorem C7_duplicate_registration (registry : List Parachain)
    (data : RegistrationData) (para : Parachain)
    (h : registered_para registry data.para.relay_chain data.para.para_id =
      some para) :
    ∀ (cfg : Option PaymentInfo) (env : ChainEnv) (persistOk : Bool),
      register_para cfg env persistOk registry data =
        (Except.error Error.AlreadyRegistered, registry) := by
  intro cfg env persistOk
  unfold register_para
  simp [h]

/-- C7 witness: `C7_duplicate_registration` on a registry already holding
`paraW`, with a payment block number supplied. -/
theorem C7_duplicate_registration_witness :
    registered_para [paraW] paraW.relay_chain paraW.para_id = some paraW ∧
    register_para (some pinfoW) envU true [paraW] ⟨paraW, some 99⟩ =
      (Except.error Error.AlreadyRegistered, [paraW]) :=
  ⟨rfl, C7_duplicate_registration [paraW] ⟨paraW, some 99⟩ paraW rfl
    (some pinfoW) envU true⟩

/-- C8: for a fresh identity, paid mode with no payment block number fails
with `PaymentRequired` for every chain state (so before any payment
verification), while free mode with no payment block number succeeds. -/
theorem C8_payment_required_and_free_mode (registry : List Parachain)
    (para : Parachain)
    (h : registered_para registry para.relay_chain para.para_id = none) :
    (∀ (pinfo : PaymentInfo) (env : ChainEnv) (persistOk : Bool),
      (register_para (some pinfo) env persistOk registry ⟨para, none⟩).1 =
        Except.error Error.PaymentRequired) ∧
    (∀ (env : ChainEnv) (persistOk : Bool),
      (register_para none env persistOk registry ⟨para, none⟩).1 =
        Except.ok ()) := by
  constructor
  · intro pinfo env persistOk
    unfold register_para
    simp [h]
  · intro env persistOk
    unfold register_para
    simp [h]

/-- C8 witness: `C8_payment_required_and_free_mode` on the empty registry:
paid mode answers `PaymentRequired`, free mode succeeds. -/
theorem C8_payment_required_and_free_mode_witness :
    registered_para [] paraW.relay_chain paraW.para_id = none ∧
    (register_para (some pinfoW) envU true [] ⟨paraW, none⟩).1 =
      Except.error Error.PaymentRequired ∧
    (register_para none envU true [] ⟨paraW, none⟩).1 = Except.ok () :=
  ⟨rfl,
    (C8_payment_required_and_free_mode [] paraW rfl).1 pinfoW envU true,
    (C8_payment_required_and_free_mode [] paraW rfl).2 envU true⟩

/-- C9: when registration reaches the success path (it succeeds with a
working registry write), a failing registry write still returns success to
the caller - only the stored registry is left unchanged. -/
theorem C9_persistence_best_effort (cfg : Option PaymentInfo) (env : ChainEnv)
    (registry : List Parachain) (data : RegistrationData)
    (h : (register_para cfg env true registry data).1 = Except.ok ()) :
    (register_para cfg env false registry data).1 = Except.ok () ∧
    (register_para cfg env false registry data).2 = registry := by
  unfold register_para at h ⊢
  by_cases hr : (registered_para registry data.para.relay_chain
      data.para.para_id).isSome
  · simp [hr] at h
  · cases cfg with
    | none => simp [hr]
    | some pinfo =>
      cases hn : data.payment_block_number with
      | none => simp [hr, hn] at h
      | some n =>
        cases hv : validate_registration_payment env data.para pinfo n with
        | error e => simp [hr, hn, hv] at h
        | ok u => simp [hr, hn, hv]

/-- C9 witness: `C9_persistence_best_effort` for a free-mode registration
of `paraW` on the empty registry: with the write failing the response is
still success and the stored registry is unchanged. -/
theorem C9_persistence_best_effort_witness :
    (register_para none envU true [] ⟨paraW, none⟩).1 = Except.ok () ∧
    (register_para none envU false [] ⟨paraW, none⟩).1 = Except.ok () ∧
    (register_para none envU false [] ⟨paraW, none⟩).2 = [] :=
  ⟨rfl,
    (C9_persistence_best_effort none envU [] ⟨paraW, none⟩ rfl).1,
    (C9_persistence_best_effort none envU [] ⟨paraW, none⟩ rfl).2⟩

/-- C10: when the record's expiry is at most the configured renewal period,
the saturating subtraction yields 0, so the too-early check can never fire
(`AlreadyRegistered` is impossible for every verifier) and the request
always proceeds to payment verification: with a verifier that fails with
`e` the handler answers exactly `PaymentValidationError e`. -/
theorem C10_saturating_renewal (pinfo : PaymentInfo) (now : Nat)
    (registry : List Parachain) (data : ExtendSubscriptionData)
    (para : Parachain) (persistOk : Bool)
    (h1 : registered_para registry data.para.1 data.para.2 = some para)
    (h2 : para.expiry_timestamp ≤ pinfo.renewal_period) :
    para.expiry_timestamp - pinfo.renewal_period = 0 ∧
    (∀ verify,
      (extend_subscription (some pinfo) now verify persistOk registry data).1 ≠
        Except.error Error.AlreadyRegistered) ∧
    (∀ e : PaymentError,
      (extend_subscription (some pinfo) now (fun _ _ _ => Except.error e)
          persistOk registry data).1 =
        Except.error (Error.PaymentValidationError e)) := by
  have hsat : para.expiry_timestamp - pinfo.renewal_period = 0 :=
    Nat.sub_eq_zero_of_le h2
  have hno : ¬ (para.expiry_timestamp - pinfo.renewal_period > now) := by
    rw [hsat]
    exact Nat.not_lt_zero now
  refine ⟨hsat, ?_, ?_⟩
  · intro verify hcontra
    unfold extend_subscription at hcontra
    simp only [h1] at hcontra
    simp only [extend_duration, if_neg hno] at hcontra
    cases hv : verify para pinfo data.payment_block_number with
    | error e => rw [hv] at hcontra; simp at hcontra
    | ok u =>
      rw [hv] at hcontra
      cases hu : update_first_matching para pinfo.subscription_duration registry with
      | none => simp only [hu] at hcontra; simp at hcontra
      | some l => simp only [hu] at hcontra; simp at hcontra
  · intro e
    unfold extend_subscription
    simp only [h1]
    simp [extend_duration, if_neg hno]

/-- C10 witness: `C10_saturating_renewal` for `paraL` (expiry 5, renewal
period 10) at time 0: the request reaches the verifier, whose `NotFound`
failure comes back wrapped. -/
theorem C10_saturating_renewal_witness :
    registered_para [paraL] "polkadot" 2001 = some paraL ∧
    paraL.expiry_timestamp ≤ pinfoW.renewal_period ∧
    (extend_subscription (some pinfoW) 0
        (fun _ _ _ => Except.error PaymentError.NotFound) true [paraL]
        ⟨("polkadot", 2001), 42⟩).1 =
      Except.error (Error.PaymentValidationError PaymentError.NotFound) :=
  ⟨rfl, by decide,
    (C10_saturating_renewal pinfoW 0 [paraL] ⟨("polkadot", 2001), 42⟩ paraL
        true rfl (by decide)).2.2 PaymentError.NotFound⟩
